import Mathlib

/-!
Verification of the timeline-synthesis pipeline of the auto-shorts video
generator.  The development shallowly embeds the data model of the pipeline and
operations: scripts are records of optional JSON fields (JavaScript truthiness
is made explicit), audio files are lists of atomic clip durations (in seconds,
as rationals), ffmpeg operations become pure functions on those lists, and the
asynchronous stage pipeline of each content shape becomes a value in a small
writer/error structure `Run` that records the side effects (directory creation,
collaborator calls, renders) performed before the first failure.
-/

namespace AutoShorts

/-- JavaScript truthiness of an optional string field: `undefined` and the
empty string are falsy, every other string is truthy. -/
def truthyStr : Option String → Bool
  | none => false
  | some s => !(s.isEmpty)

/-- JavaScript truthiness of an optional array field: `undefined` is falsy and
every array (including the empty array) is truthy. -/
def truthyList {α : Type} : Option (List α) → Bool
  | none => false
  | some _ => true

/-- Model of `path.join` with two components. -/
def pathJoin (a b : String) : String := a ++ "/" ++ b

/-- One entry of the `script` array of a message video
(`src/types/msgVid.ts`, `MessageVideoData`). -/
structure MessageItem where
  voice : String
  message : String
  msgtype : String
  deriving DecidableEq

/-- One entry of the `questions` array of a quiz video
(`src/types/quizVid.ts`, `QuizVideoData`). -/
structure QuizQuestion where
  question : String
  answer : String
  deriving DecidableEq

/-- One entry of the `questions` array of a rather video
(`src/types/ratherVid.ts`, `RatherVideoData`). -/
structure RatherQuestion where
  option1 : String
  option2 : String
  p1 : Int
  p2 : Int
  image1 : String
  image2 : String
  deriving DecidableEq

/-- The parsed JSON document handed to `genVideo`.  JSON objects are dynamic,
so every field any of the five shapes reads is modelled as an optional field
of one flat record; the single dynamic `questions` field is split into the two
typed views `questionsQuiz` and `questionsRather` used by the quiz and rather
shapes respectively. -/
structure ScriptDoc where
  type : Option String := none
  contactname : Option String := none
  script : Option (List MessageItem) := none
  extra : Option String := none
  title : Option String := none
  text : Option String := none
  rankings : Option (List String) := none
  images : Option (List String) := none
  start_script : Option String := none
  end_script : Option String := none
  questionsQuiz : Option (List QuizQuestion) := none
  questionsRather : Option (List RatherQuestion) := none
  deriving DecidableEq

/-- Model of `MsgVideo.checkJson` (`src/types/msgVid.ts`): throws when `contactname`
or `script` is falsy. -/
def MsgVideo.checkJson (d : ScriptDoc) : Except String Unit :=
  if !(truthyStr d.contactname) || !(truthyList d.script) then
    .error "JSON data is missing required fields!"
  else .ok ()

/-- Model of `RankVideo.checkJson` (`src/types/rankVid.ts`): throws when `rankings`,
`images`, `start_script` or `end_script` is falsy. -/
def RankVideo.checkJson (d : ScriptDoc) : Except String Unit :=
  if !(truthyList d.rankings) || !(truthyList d.images) ||
      !(truthyStr d.start_script) || !(truthyStr d.end_script) then
    .error "JSON data is missing required fields!"
  else .ok ()

/-- Model of `RatherVideo.checkJson` (`src/types/ratherVid.ts`): throws when
`questions`, `start_script` or `end_script` is falsy. -/
def RatherVideo.checkJson (d : ScriptDoc) : Except String Unit :=
  if !(truthyList d.questionsRather) || !(truthyStr d.start_script) ||
      !(truthyStr d.end_script) then
    .error "JSON data is missing required fields!"
  else .ok ()

/-- Model of `QuizVideo.checkJson` (`src/types/quizVid.ts`): throws when `title` or
`questions` is falsy. -/
def QuizVideo.checkJson (d : ScriptDoc) : Except String Unit :=
  if !(truthyStr d.title) || !(truthyList d.questionsQuiz) then
    .error "JSON data is missing required fields!"
  else .ok ()

/-- Model of `TopicVideo.checkJson` (`src/types/topicVid.ts`): throws when `text` is
falsy. -/
def TopicVideo.checkJson (d : ScriptDoc) : Except String Unit :=
  if !(truthyStr d.text) then
    .error "Error: JSON data is missing required text field!"
  else .ok ()

/-! ## Audio model

An audio file is the list of the durations (seconds, rational) of the atomic
clips that were concatenated into it; its play duration is their sum.
the `mergeToFile` operation of `fluent-ffmpeg` concatenates its inputs in the order they were
added, which the model makes literal. -/

/-- An audio file, as the durations of its concatenated atomic clips. -/
abbrev Audio : Type := List ℚ

/-- Play duration of an audio file. -/
def audioDuration (a : Audio) : ℚ := a.sum

/-- Model of `VideoGen.mergeAudio` (`src/videogen.ts`): inputs `baseFile` then
`inputFile` are merged to one file, so the input clip plays after the base
clip. -/
def mergeAudio (baseFile inputFile : Audio) : Audio := baseFile ++ inputFile

/-- Model of `VideoGen.mergeMultiAudio` (`src/videogen.ts`): inputs are added in the
order `base1File`, `inputFile`, `base2File`, so the merged file plays the
first base, then the input, then the second base. -/
def mergeMultiAudio (base1File base2File inputFile : Audio) : Audio :=
  base1File ++ inputFile ++ base2File

/-- Model of `VideoGen.combineVoiceFiles` (`src/videogen.ts`): merges the listed voice
files, in order, into the single master voice track. -/
def combineVoiceFiles (voiceFiles : List Audio) : Audio := voiceFiles.flatten

/-- Duration behaviour of the ffmpeg `amix` filter, selected by the `duration`
option. -/
inductive AmixDurationMode
  | longest
  | shortest
  | first
  deriving DecidableEq

/-- Output duration of `amix` for two inputs under each `duration` mode. -/
def amixOutDuration : AmixDurationMode → ℚ → ℚ → ℚ
  | .longest, a, b => max a b
  | .shortest, a, b => min a b
  | .first, a, _ => a

/-- The fixed filter graph of `VideoGen.combineVoiceToBgAudio`
(`src/videogen.ts`): voice at volume 1, background at volume 0.1, mixed with
`amix=inputs=2:duration=first`. -/
structure MixSpec where
  voiceGain : ℚ
  bgGain : ℚ
  durationMode : AmixDurationMode

/-- The mix specification hard-coded in `combineVoiceToBgAudio`. -/
def combineVoiceToBgAudioSpec : MixSpec :=
  { voiceGain := 1, bgGain := 1/10, durationMode := .first }

/-- Output duration of `VideoGen.combineVoiceToBgAudio` given the durations of
the voice input and of the background input. -/
def combineVoiceToBgAudioDuration (voiceDur bgDur : ℚ) : ℚ :=
  amixOutDuration combineVoiceToBgAudioSpec.durationMode voiceDur bgDur

/-! ## Duration prober -/

/-- The metadata object `ffprobe` passes to its callback: the `format.duration`
field may be absent. -/
structure ProbeMeta where
  duration : Option ℚ
  deriving DecidableEq

/-- Model of `VideoGen.getAudioDuration` (`src/videogen.ts`): rejects when `ffprobe`
reports an error, otherwise resolves `metadata.format.duration ?? 0`. -/
def getAudioDuration (probed : Except String ProbeMeta) : Except String ℚ :=
  match probed with
  | .error e => .error e
  | .ok metadata => .ok (metadata.duration.getD 0)

/-- Model of `VideoGen.getListOfDurations` (`src/videogen.ts`): probes every listed
file; the results are collected in list order (`Promise.all`). -/
def getListOfDurations : List (Except String ProbeMeta) →
    Except String (List ℚ)
  | [] => .ok []
  | p :: rest =>
    match getAudioDuration p with
    | .error e => .error e
    | .ok d =>
      match getListOfDurations rest with
      | .error e => .error e
      | .ok ds => .ok (d :: ds)

/-! ## Message-video timeline (`src/types/msgVid.ts`) -/

/-- Start offset of message bubble `index`
(`durations.slice(0, index).reduce((a, b) => a + b, 0)` in
`MsgVideo.generateVideo`). -/
def imgStartDuration (durations : List ℚ) (index : ℕ) : ℚ :=
  (durations.take index).foldl (fun a b => a + b) 0

/-- Timeline entry of message bubble `index`: the bubble fades in at its start
offset and `messageImage.setDuration(fullDuration - imgStartDuration)` keeps it
on screen until the end of the video. -/
def msgTimelineEntry (durations : List ℚ) (fullDuration : ℚ) (index : ℕ) :
    ℚ × ℚ :=
  (imgStartDuration durations index,
    fullDuration - imgStartDuration durations index)

/-- The whole overlay timeline of a message video: one entry per bubble of the
script, in script order. -/
def msgTimeline (script : List MessageItem) (durations : List ℚ)
    (fullDuration : ℚ) : List (ℚ × ℚ) :=
  (List.range script.length).map (msgTimelineEntry durations fullDuration)

theorem imgStartDuration_eq_sum (durations : List ℚ) (index : ℕ) :
    imgStartDuration durations index = (durations.take index).sum := by
  simp [imgStartDuration, List.sum_eq_foldl]

theorem imgStartDuration_zero (durations : List ℚ) :
    imgStartDuration durations 0 = 0 := by
  simp [imgStartDuration]

theorem imgStartDuration_succ (durations : List ℚ) (i : ℕ) :
    imgStartDuration durations (i + 1) =
      imgStartDuration durations i + durations.getD i 0 := by
  simp only [imgStartDuration_eq_sum]
  rw [List.take_succ, List.sum_append]
  cases h : durations[i]? <;>
    simp [List.getD, h]

/-! ## Effects and the pipeline structure

Each `generateVideo` method is a sequence of awaited asynchronous steps; a
rejected step propagates out of the whole method.  A pipeline is therefore
modelled as a `Run`: the list of side effects performed up to the first
failure, the log messages emitted, and the final result. -/

/-- Data each shape hands to the rendering collaborator (the part of the scene
graph derived from measured durations). -/
inductive RenderSpec
  /-- Message video: one `(fade-in offset, on-screen duration)` overlay entry
  per bubble. -/
  | message (timeline : List (ℚ × ℚ))
  /-- Rank video: one scene per image file, with its duration. -/
  | rank (sceneDurations : List ℚ)
  /-- Quiz video: fade-in offset of each answer text. -/
  | quiz (answerFades : List ℚ)
  /-- Rather video (scene timing not modelled further). -/
  | rather
  /-- Topic video (album timing not modelled further). -/
  | topic
  deriving DecidableEq

/-- Side effects a pipeline performs: filesystem mutations and calls into
external collaborators.  Read-only filesystem accesses are not effects. -/
inductive Effect
  /-- Model of `fs.mkdirSync` of the unique temp directory of the run. -/
  | mkdirTemp (dir : String)
  /-- Model of `fs.rmSync` of a stale temp directory of the same id. -/
  | rmdirTemp (dir : String)
  /-- A call into a voice-generation collaborator. -/
  | ttsCall (provider : String) (text : String)
  /-- An ffmpeg invocation, by operation and output file. -/
  | ffmpeg (op : String) (outFile : String)
  /-- An `ffprobe` invocation. -/
  | probe (file : String)
  /-- A call into an image-provider collaborator. -/
  | imageFetch (query : String)
  /-- A call into the transcription collaborator. -/
  | transcribeCall
  /-- A file written under the temp directory (canvas images, srt files). -/
  | writeFile (file : String)
  /-- Model of `creator.start()`: the scene graph is handed to the rendering
  collaborator. -/
  | render (spec : RenderSpec)
  deriving DecidableEq

/-- A pipeline run: effects and logs up to the first failure, and the
result. -/
structure Run (α : Type) where
  effects : List Effect
  logs : List String
  result : Except String α

/-- The completed step of an awaited sequence. -/
def Run.pure {α : Type} (a : α) : Run α := ⟨[], [], .ok a⟩

/-- Sequencing of awaited steps: a rejection in the first step propagates and
the continuation is never started. -/
def Run.bind {α β : Type} (x : Run α) (f : α → Run β) : Run β :=
  match x.result with
  | .error e => ⟨x.effects, x.logs, .error e⟩
  | .ok a =>
    let y := f a
    ⟨x.effects ++ y.effects, x.logs ++ y.logs, y.result⟩

instance : Monad Run where
  pure := Run.pure
  bind := Run.bind

/-- A `throw` statement. -/
def Run.throw {α : Type} (e : String) : Run α := ⟨[], [], .error e⟩

/-- A single side effect. -/
def Run.effect (e : Effect) : Run Unit := ⟨[e], [], .ok ()⟩

/-- A `this.log(...)` call (an emitted log event). -/
def Run.log (m : String) : Run Unit := ⟨[], [m], .ok ()⟩

/-- Lift a synchronous throwing computation. -/
def Run.ofExcept {α : Type} : Except String α → Run α := fun r => ⟨[], [], r⟩

theorem Run.bind_ok {α β : Type} (x : Run α) (f : α → Run β) (a : α)
    (h : x.result = .ok a) :
    Run.bind x f =
      ⟨x.effects ++ (f a).effects, x.logs ++ (f a).logs, (f a).result⟩ := by
  simp [Run.bind, h]

theorem Run.bind_error {α β : Type} (x : Run α) (f : α → Run β) (e : String)
    (h : x.result = .error e) :
    Run.bind x f = ⟨x.effects, x.logs, .error e⟩ := by
  simp [Run.bind, h]

/-! ## External collaborators

Every suspension point of the pipeline calls a collaborator; a `Collab` fixes
the outcome of each such call, so a pipeline applied to a `Collab` is a pure
function. -/

/-- Outcomes of all external collaborator calls and of the filesystem reads a
run performs. -/
structure Collab where
  /-- Model of `say.export` callback argument: an error message, or `none` on
  success. -/
  say : String → Option String
  /-- Outcome of an ElevenLabs generation for a given text. -/
  elevenLabs : String → Except String Unit
  /-- Outcome of a NeetsTTS generation for a given text. -/
  neets : String → Except String Unit
  /-- Outcome of an ffmpeg operation, by operation name and output file. -/
  ffmpegOp : String → String → Except String Unit
  /-- Model of `ffprobe` outcome per file. -/
  probeFile : String → Except String ProbeMeta
  /-- Paths returned by an image-provider call for a query list. -/
  imageResolve : List String → Except String (List String)
  /-- Outcome of the transcription collaborator. -/
  transcribe : Except String Unit
  /-- Model of `fs.existsSync` on a directory. -/
  existsDir : String → Bool
  /-- The random id `checkTempPath` generates for the temp folder of the run. -/
  randomId : String

/-- The three voice generation types of `src/tts.ts`. -/
inductive VoiceGenType
  | elevenLabs
  | neetsTTS
  | builtinTTS
  deriving DecidableEq

/-- The two image generation types of `src/image.ts`. -/
inductive ImageGenType
  | pexelsImageGen
  | googleScraperImageGen
  deriving DecidableEq

/-- The resolved options of a run (`VideoOptions` plus the
`InternalVideoOptions` fields the core reads, `src/videogen.ts`). -/
structure VideoOptions where
  tempPath : String
  resPath : String
  voiceGenType : VoiceGenType
  imageGenType : ImageGenType
  orientation : String := "vertical"
  useBgMusic : Bool := true
  changePhotos : Bool := true
  disableTTS : Bool := false
  disableSubtitles : Bool := false
  elevenLabsAPIKey : Option String := none
  neetsAPIKey : Option String := none

/-- Model of `ElevenLabsVoice.generateVoice` (`src/tts.ts`): requires an API key, then
rejects with the provider error or resolves once the audio is written. -/
def ElevenLabsVoice.generateVoice (c : Collab) (key : Option String)
    (text : String) : Run Unit :=
  match key with
  | none =>
    Run.throw "ElevenLabs API key required for voice generation."
  | some _ =>
    match c.elevenLabs text with
    | .error e => ⟨[.ttsCall "ElevenLabs" text], [], .error e⟩
    | .ok _ =>
      ⟨[.ttsCall "ElevenLabs" text],
        ["Voice created using Elevenlab for message"], .ok ()⟩

/-- Model of `NeetsTTSVoice.generateVoice` (`src/tts.ts`): requires an API key, then
throws on a non-ok response. -/
def NeetsTTSVoice.generateVoice (c : Collab) (key : Option String)
    (text : String) : Run Unit :=
  match key with
  | none => Run.throw "NeetsTTS API key required."
  | some _ =>
    match c.neets text with
    | .error e => ⟨[.ttsCall "NeetsTTS" text], [], .error e⟩
    | .ok _ =>
      ⟨[.ttsCall "NeetsTTS" text],
        ["Voice created using NeetsTTS for message"], .ok ()⟩

/-- Model of `BuiltinTTSVoice.generateVoice` (`src/tts.ts`): a `say.export` failure is
logged with an `[ignoring]` tag and the promise still resolves. -/
def BuiltinTTSVoice.generateVoice (c : Collab) (text : String) : Run Unit :=
  match c.say text with
  | some errMsg =>
    ⟨[.ttsCall "Say" text],
      ["[ignoring] Error creating voice for message: " ++ errMsg,
        "Voice created using Say for message"], .ok ()⟩
  | none =>
    ⟨[.ttsCall "Say" text], ["Voice created using Say for message"], .ok ()⟩

/-- Model of `VideoGen.generateVoice` (`src/videogen.ts`): skips synthesis entirely
when TTS is disabled, otherwise dispatches on the configured voice type. -/
def VideoGen.generateVoice (c : Collab) (opts : VideoOptions)
    (text : String) : Run Unit :=
  if opts.disableTTS then Run.pure ()
  else
    match opts.voiceGenType with
    | .elevenLabs => ElevenLabsVoice.generateVoice c opts.elevenLabsAPIKey text
    | .neetsTTS => NeetsTTSVoice.generateVoice c opts.neetsAPIKey text
    | .builtinTTS => BuiltinTTSVoice.generateVoice c text

/-- Model of `VideoGen.checkTempPath` (`src/videogen.ts`): appends a random id to the
configured temp path, deletes a stale directory of the same id if one exists,
creates the directory fresh, and makes it the temp path of the run. -/
def VideoGen.checkTempPath (c : Collab) (tempPath : String) : Run String :=
  let uniqueFolder := pathJoin tempPath c.randomId
  if !(c.existsDir uniqueFolder) then
    ⟨[.mkdirTemp uniqueFolder],
      ["Starting video generation...", "Temp directory created successfully!"],
      .ok uniqueFolder⟩
  else
    ⟨[.rmdirTemp uniqueFolder, .mkdirTemp uniqueFolder],
      ["Starting video generation...",
        "Temp directory already exists! Deleting and creating a new one..."],
      .ok uniqueFolder⟩

/-- The loop body of `checkResDir` (`src/index.ts`): throws on the first
missing resource folder.  `fs.existsSync` is a read, not an effect. -/
def checkResDirLoop (c : Collab) (resPath : String) :
    List String → Run Unit
  | [] => Run.pure ()
  | folder :: rest =>
    if !(c.existsDir (pathJoin resPath folder)) then
      Run.throw ("Resource folder is missing folder: " ++
        pathJoin resPath folder)
    else checkResDirLoop c resPath rest

/-- Model of `checkResDir` (`src/index.ts`): the res path must contain the `models`,
`vid` and `music` folders. -/
def checkResDir (c : Collab) (resPath : String) : Run Unit :=
  checkResDirLoop c resPath ["models", "vid", "music"]

/-- An awaited ffmpeg invocation (the shared shape of `combineVoiceFiles`,
`combineVoiceToBgAudio`, `genAudio16K`, `mergeAudio` and `mergeMultiAudio` in
`src/videogen.ts`): the call is made, then an engine error rejects. -/
def ffmpegRun (c : Collab) (op outFile : String) : Run Unit :=
  match c.ffmpegOp op outFile with
  | .error e => ⟨[.ffmpeg op outFile], [], .error e⟩
  | .ok _ => ⟨[.ffmpeg op outFile], [], .ok ()⟩

/-- The awaited form of `VideoGen.getAudioDuration`: one `ffprobe` call whose
result is interpreted by the pure `getAudioDuration`. -/
def VideoGen.getAudioDurationRun (c : Collab) (file : String) : Run ℚ :=
  ⟨[.probe file], [], getAudioDuration (c.probeFile file)⟩

/-- The awaited form of `VideoGen.getListOfDurations`: probes every file of
the list, results in list order. -/
def VideoGen.getListOfDurationsRun (c : Collab) : List String → Run (List ℚ)
  | [] => Run.pure []
  | f :: rest =>
    Run.bind (VideoGen.getAudioDurationRun c f) fun d =>
    Run.bind (VideoGen.getListOfDurationsRun c rest) fun ds =>
    Run.pure (d :: ds)

/-- The destination paths `VideoGen.generateImages` computes when photo
changing is disabled: `image-(filePref ?? index).png` under the temp path,
without consulting any provider. -/
def imageSkipPaths (tempPath : String) (filePref : Option String)
    (images : List String) : List String :=
  (List.range images.length).map fun index =>
    pathJoin tempPath ("image-" ++ (filePref.getD (toString index)) ++ ".png")

/-- Model of `VideoGen.generateImages` (`src/videogen.ts`): when `changePhotos` is set
the configured image provider (Pexels or the Google scraper, both behind the
`imageResolve` oracle) is invoked with the query list; otherwise the
deterministic skip paths are returned and no provider call happens. -/
def VideoGen.generateImages (c : Collab) (opts : VideoOptions)
    (tempPath : String) (images : List String) (filePref : Option String) :
    Run (List String) :=
  if opts.changePhotos then
    match c.imageResolve images with
    | .error e => ⟨images.map Effect.imageFetch, [], .error e⟩
    | .ok paths => ⟨images.map Effect.imageFetch, [], .ok paths⟩
  else
    ⟨[], [], .ok (imageSkipPaths tempPath filePref images)⟩

/-- Model of `VideoGen.generateSubtitles` (`src/videogen.ts`): transcription is only
attempted when subtitles are enabled. -/
def VideoGen.generateSubtitles (c : Collab) (opts : VideoOptions) : Run Unit :=
  if !opts.disableSubtitles then
    match c.transcribe with
    | .error e => ⟨[.transcribeCall], [], .error e⟩
    | .ok _ => ⟨[.transcribeCall], [], .ok ()⟩
  else Run.pure ()

/-- Canvas images written under the temp directory. -/
def Run.writeAll (files : List String) : Run Unit :=
  ⟨files.map Effect.writeFile, [], .ok ()⟩

/-! ## The message-video pipeline (`src/types/msgVid.ts`) -/

/-- The per-message voice loop of `MsgVideo.generateVideo`: one awaited
`generateVoice` per script entry, in script order. -/
def MsgVideo.voiceLoop (c : Collab) (opts : VideoOptions) :
    List MessageItem → Run Unit
  | [] => Run.pure ()
  | m :: rest =>
    Run.bind (VideoGen.generateVoice c opts m.message) fun _ =>
    MsgVideo.voiceLoop c opts rest

/-- The `voiceFiles` list of `MsgVideo.generateVideo`: `message(i).wav` per
script entry plus `extra.wav` when the extra field is truthy. -/
def MsgVideo.voiceFileNames (tmp : String) (script : List MessageItem)
    (extraOn : Bool) : List String :=
  (List.range script.length).map
      (fun index => pathJoin tmp ("message" ++ toString index ++ ".wav")) ++
    (if extraOn then [pathJoin tmp "extra.wav"] else [])

/-- The message-bubble images `MsgVideo.generateVideo` writes. -/
def MsgVideo.bubbleFileNames (tmp : String) (script : List MessageItem) :
    List String :=
  (List.range script.length).map
    (fun index => pathJoin tmp ("message" ++ toString index ++ ".png"))

/-- Model of `MsgVideo.generateVideo` (`src/types/msgVid.ts`) as an awaited stage
sequence: json check, temp dir, per-message voices, optional extra voice,
master concatenation, background mix, per-file durations, header and bubble
images, full-duration probe, then the render hand-off carrying the bubble
timeline. -/
def MsgVideo.generateVideo (c : Collab) (opts : VideoOptions)
    (d : ScriptDoc) : Run Unit :=
  Run.bind (Run.ofExcept (MsgVideo.checkJson d)) fun _ =>
  Run.bind (VideoGen.checkTempPath c opts.tempPath) fun tmp =>
  Run.bind (MsgVideo.voiceLoop c opts (d.script.getD [])) fun _ =>
  Run.bind (if truthyStr d.extra then
      VideoGen.generateVoice c opts (d.extra.getD "")
    else Run.pure ()) fun _ =>
  Run.bind (ffmpegRun c "combineVoiceFiles" (pathJoin tmp "voice.wav"))
    fun _ =>
  Run.bind (ffmpegRun c "combineVoiceToBgAudio" (pathJoin tmp "audio.wav"))
    fun _ =>
  Run.bind (VideoGen.getListOfDurationsRun c
      (MsgVideo.voiceFileNames tmp (d.script.getD []) (truthyStr d.extra)))
    fun durations =>
  Run.bind (Run.effect (.writeFile (pathJoin tmp "msg_header.png"))) fun _ =>
  Run.bind (Run.writeAll (MsgVideo.bubbleFileNames tmp (d.script.getD [])))
    fun _ =>
  Run.bind (VideoGen.getAudioDurationRun c (pathJoin tmp "audio.wav"))
    fun fullDuration =>
  Run.effect (.render (.message
    (msgTimeline (d.script.getD []) durations fullDuration)))

/-! ## The rank-video pipeline (`src/types/rankVid.ts`, the variant with the
`useBgMusic` gate) -/

/-- The per-ranking voice loop of `RankVideo.generateVideo`: one awaited
`generateVoice` per ranking, each followed by `mergeAudio` with the fixed
`tick.mp3` cue into `rank-(i)-full.wav`. -/
def RankVideo.rankVoiceLoop (c : Collab) (opts : VideoOptions) (tmp : String) :
    ℕ → List String → Run Unit
  | _, [] => Run.pure ()
  | index, rank :: rest =>
    Run.bind (VideoGen.generateVoice c opts rank) fun _ =>
    Run.bind (ffmpegRun c "mergeAudio"
        (pathJoin tmp ("rank-" ++ toString index ++ "-full.wav"))) fun _ =>
    RankVideo.rankVoiceLoop c opts tmp (index + 1) rest

/-- The `voicesFiles` list of `RankVideo.generateVideo`: `start.wav` when the
start script is truthy, the cue-merged `rank-(i)-full.wav` per ranking, and
`end.wav` when the end script is truthy. -/
def RankVideo.voicesFileNames (tmp : String) (startOn : Bool)
    (rankings : List String) (endOn : Bool) : List String :=
  (if startOn then [pathJoin tmp "start.wav"] else []) ++
    (List.range rankings.length).map
      (fun index => pathJoin tmp ("rank-" ++ toString index ++ "-full.wav")) ++
    (if endOn then [pathJoin tmp "end.wav"] else [])

/-- The background-music gate of `RankVideo.generateVideo`: the video audio
file defaults to the voice file; only when `useBgMusic` is set is the
background overlaid into `audio.wav`, which then replaces it. -/
def RankVideo.bgMixStage (c : Collab) (useBgMusic : Bool)
    (tmp voiceFile : String) : Run String :=
  if useBgMusic then
    Run.bind (ffmpegRun c "combineVoiceToBgAudio" (pathJoin tmp "audio.wav"))
      fun _ =>
    Run.pure (pathJoin tmp "audio.wav")
  else
    ⟨[], ["Background audio overlay disabled! Using voice audio file only..."],
      .ok voiceFile⟩

/-- The `imageFiles` list of `RankVideo.generateVideo`: the composed
`start.png` title card followed by one composed `rank-(i).png` per ranking. -/
def RankVideo.imageFileNames (tmp : String) (rankings : List String) :
    List String :=
  pathJoin tmp "start.png" ::
    (List.range rankings.length).map
      (fun index => pathJoin tmp ("rank-" ++ toString index ++ ".png"))

/-- The scene-duration loop of `RankVideo.generateVideo`: scene `index` lasts
`durations[index] ?? 0`, and the last scene additionally absorbs
`durations[durations.length - 1]`. -/
def rankSceneDurations (durations : List ℚ) (numImageFiles : ℕ) : List ℚ :=
  (List.range numImageFiles).map fun index =>
    let d := durations.getD index 0
    if index = numImageFiles - 1 then
      d + durations.getD (durations.length - 1) 0
    else d

/-- Model of `RankVideo.generateVideo` (`src/types/rankVid.ts`) as an awaited stage
sequence: json check, temp dir, optional start voice, cue-merged ranking
voices, optional end voice, master concatenation, per-file durations, the
background-music gate, image resolution, image composition, full-duration
probe, then the render hand-off carrying the scene durations. -/
def RankVideo.generateVideo (c : Collab) (opts : VideoOptions)
    (d : ScriptDoc) : Run Unit :=
  Run.bind (Run.ofExcept (RankVideo.checkJson d)) fun _ =>
  Run.bind (VideoGen.checkTempPath c opts.tempPath) fun tmp =>
  Run.bind (if truthyStr d.start_script then
      VideoGen.generateVoice c opts (d.start_script.getD "")
    else Run.pure ()) fun _ =>
  Run.bind (RankVideo.rankVoiceLoop c opts tmp 0 (d.rankings.getD [])) fun _ =>
  Run.bind (if truthyStr d.end_script then
      VideoGen.generateVoice c opts (d.end_script.getD "")
    else Run.pure ()) fun _ =>
  Run.bind (ffmpegRun c "combineVoiceFiles" (pathJoin tmp "voice.wav"))
    fun _ =>
  Run.bind (VideoGen.getListOfDurationsRun c
      (RankVideo.voicesFileNames tmp (truthyStr d.start_script)
        (d.rankings.getD []) (truthyStr d.end_script))) fun durations =>
  Run.bind (RankVideo.bgMixStage c opts.useBgMusic tmp
      (pathJoin tmp "voice.wav")) fun audioFile =>
  Run.bind (VideoGen.generateImages c opts tmp (d.images.getD []) none)
    fun _rankImages =>
  Run.bind (Run.writeAll (RankVideo.imageFileNames tmp (d.rankings.getD [])))
    fun _ =>
  Run.bind (VideoGen.getAudioDurationRun c audioFile) fun _fullDuration =>
  Run.effect (.render (.rank (rankSceneDurations durations
    (RankVideo.imageFileNames tmp (d.rankings.getD [])).length)))

/-! ## The quiz-video pipeline (`src/types/quizVid.ts`) -/

/-- The question text spoken for quiz question `index`. -/
def QuizVideo.questionText (index : ℕ) (q : QuizQuestion) : String :=
  "Question " ++ toString (index + 1) ++ ": " ++ q.question

/-- The per-question voice loop of `QuizVideo.generateVideo`: question voice,
answer voice, then `mergeMultiAudio` of question, `clock.mp3` cue and answer
into `question-(i)-full.wav`. -/
def QuizVideo.questionLoop (c : Collab) (opts : VideoOptions) (tmp : String) :
    ℕ → List QuizQuestion → Run Unit
  | _, [] => Run.pure ()
  | index, q :: rest =>
    Run.bind (VideoGen.generateVoice c opts (QuizVideo.questionText index q))
      fun _ =>
    Run.bind (VideoGen.generateVoice c opts q.answer) fun _ =>
    Run.bind (ffmpegRun c "mergeMultiAudio"
        (pathJoin tmp ("question-" ++ toString index ++ "-full.wav"))) fun _ =>
    QuizVideo.questionLoop c opts tmp (index + 1) rest

/-- The `voiceFiles` list of `QuizVideo.generateVideo`: `start.wav` when the
start script is truthy, one merged `question-(i)-full.wav` per question, and
`end.wav` when the end script is truthy. -/
def QuizVideo.voiceFileNames (tmp : String) (startOn : Bool)
    (questions : List QuizQuestion) (endOn : Bool) : List String :=
  (if startOn then [pathJoin tmp "start.wav"] else []) ++
    (List.range questions.length).map
      (fun index =>
        pathJoin tmp ("question-" ++ toString index ++ "-full.wav")) ++
    (if endOn then [pathJoin tmp "end.wav"] else [])

/-- The fade-in offset of the answer text of quiz question `index`
(`durations.slice(0, index + 2).reduce((a, b) => a + b, 0) - 1`). -/
def quizAnswerFade (durations : List ℚ) (index : ℕ) : ℚ :=
  (durations.take (index + 2)).foldl (fun a b => a + b) 0 - 1

/-- Model of `QuizVideo.generateVideo` (`src/types/quizVid.ts`) as an awaited stage
sequence. -/
def QuizVideo.generateVideo (c : Collab) (opts : VideoOptions)
    (d : ScriptDoc) : Run Unit :=
  Run.bind (Run.ofExcept (QuizVideo.checkJson d)) fun _ =>
  Run.bind (VideoGen.checkTempPath c opts.tempPath) fun tmp =>
  Run.bind (if truthyStr d.start_script then
      VideoGen.generateVoice c opts (d.start_script.getD "")
    else Run.pure ()) fun _ =>
  Run.bind (QuizVideo.questionLoop c opts tmp 0 (d.questionsQuiz.getD []))
    fun _ =>
  Run.bind (if truthyStr d.end_script then
      VideoGen.generateVoice c opts (d.end_script.getD "")
    else Run.pure ()) fun _ =>
  Run.bind (ffmpegRun c "combineVoiceFiles" (pathJoin tmp "voice.wav"))
    fun _ =>
  Run.bind (VideoGen.getListOfDurationsRun c
      (QuizVideo.voiceFileNames tmp (truthyStr d.start_script)
        (d.questionsQuiz.getD []) (truthyStr d.end_script))) fun durations =>
  Run.bind (ffmpegRun c "combineVoiceToBgAudio" (pathJoin tmp "audio.wav"))
    fun _ =>
  Run.bind (ffmpegRun c "genAudio16K" (pathJoin tmp "audio16k.wav")) fun _ =>
  Run.bind (VideoGen.generateSubtitles c opts) fun _ =>
  Run.bind (VideoGen.getAudioDurationRun c (pathJoin tmp "audio.wav"))
    fun _fullDuration =>
  Run.effect (.render (.quiz
    ((List.range (d.questionsQuiz.getD []).length).map
      (quizAnswerFade durations))))

/-! ## The rather-video pipeline (`src/types/ratherVid.ts`) -/

/-- The question text spoken for a rather question. -/
def RatherVideo.questionScript (q : RatherQuestion) : String :=
  "Would you rather " ++ q.option1 ++ " or " ++ q.option2 ++ "?"

/-- The per-question voice loop of `RatherVideo.generateVideo`: one awaited
`generateVoice` per question, each followed by `mergeAudio` with the fixed
`tick.mp3` cue into `question-(i)-full.wav`. -/
def RatherVideo.questionLoop (c : Collab) (opts : VideoOptions)
    (tmp : String) : ℕ → List RatherQuestion → Run Unit
  | _, [] => Run.pure ()
  | index, q :: rest =>
    Run.bind (VideoGen.generateVoice c opts (RatherVideo.questionScript q))
      fun _ =>
    Run.bind (ffmpegRun c "mergeAudio"
        (pathJoin tmp ("question-" ++ toString index ++ "-full.wav"))) fun _ =>
    RatherVideo.questionLoop c opts tmp (index + 1) rest

/-- The `voiceFiles` list of `RatherVideo.generateVideo`. -/
def RatherVideo.voiceFileNames (tmp : String) (startOn : Bool)
    (questions : List RatherQuestion) (endOn : Bool) : List String :=
  (if startOn then [pathJoin tmp "start.wav"] else []) ++
    (List.range questions.length).map
      (fun index =>
        pathJoin tmp ("question-" ++ toString index ++ "-full.wav")) ++
    (if endOn then [pathJoin tmp "end.wav"] else [])

/-- The per-question image loop of `RatherVideo.generateVideo`: when photo
changing is enabled the two option queries are resolved one by one; otherwise
the deterministic `image-q(i)-1.png` and `image-q(i)-2.png` paths are used
without any provider call. -/
def RatherVideo.imagesLoop (c : Collab) (opts : VideoOptions) (tmp : String) :
    ℕ → List RatherQuestion → Run Unit
  | _, [] => Run.pure ()
  | index, q :: rest =>
    if opts.changePhotos then
      Run.bind (VideoGen.generateImages c opts tmp [q.image1]
          (some ("q" ++ toString index ++ "-1"))) fun _ =>
      Run.bind (VideoGen.generateImages c opts tmp [q.image2]
          (some ("q" ++ toString index ++ "-2"))) fun _ =>
      RatherVideo.imagesLoop c opts tmp (index + 1) rest
    else
      RatherVideo.imagesLoop c opts tmp (index + 1) rest

/-- The composed question cards `RatherVideo.generateVideo` writes. -/
def RatherVideo.imageFileNames (tmp : String)
    (questions : List RatherQuestion) : List String :=
  (List.range questions.length).map
    (fun index => pathJoin tmp ("question-" ++ toString index ++ ".png"))

/-- Model of `RatherVideo.generateVideo` (`src/types/ratherVid.ts`) as an awaited
stage sequence (it rejects horizontal orientation up front). -/
def RatherVideo.generateVideo (c : Collab) (opts : VideoOptions)
    (d : ScriptDoc) : Run Unit :=
  Run.bind (Run.ofExcept (RatherVideo.checkJson d)) fun _ =>
  Run.bind (if opts.orientation = "horizontal" then
      Run.throw "Rather video does not support horizontal orientation as of now."
    else Run.pure ()) fun _ =>
  Run.bind (VideoGen.checkTempPath c opts.tempPath) fun tmp =>
  Run.bind (if truthyStr d.start_script then
      VideoGen.generateVoice c opts (d.start_script.getD "")
    else Run.pure ()) fun _ =>
  Run.bind (RatherVideo.questionLoop c opts tmp 0 (d.questionsRather.getD []))
    fun _ =>
  Run.bind (if truthyStr d.end_script then
      VideoGen.generateVoice c opts (d.end_script.getD "")
    else Run.pure ()) fun _ =>
  Run.bind (ffmpegRun c "combineVoiceFiles" (pathJoin tmp "voice.wav"))
    fun _ =>
  Run.bind (VideoGen.getListOfDurationsRun c
      (RatherVideo.voiceFileNames tmp (truthyStr d.start_script)
        (d.questionsRather.getD []) (truthyStr d.end_script))) fun _durations =>
  Run.bind (ffmpegRun c "combineVoiceToBgAudio" (pathJoin tmp "audio.wav"))
    fun _ =>
  Run.bind (RatherVideo.imagesLoop c opts tmp 0 (d.questionsRather.getD []))
    fun _ =>
  Run.bind (Run.writeAll
      (RatherVideo.imageFileNames tmp (d.questionsRather.getD []))) fun _ =>
  Run.bind (VideoGen.getAudioDurationRun c (pathJoin tmp "audio.wav"))
    fun _fullDuration =>
  Run.effect (.render .rather)

/-! ## The topic-video pipeline (`src/types/topicVid.ts`) -/

/-- Model of `TopicVideo.generateVideo` (`src/types/topicVid.ts`) as an awaited stage
sequence: json check, temp dir, the single text voice, optional extra voice,
master concatenation, background mix, 16k resample, the `images` field check,
image resolution, subtitles, full-duration probe, render hand-off. -/
def TopicVideo.generateVideo (c : Collab) (opts : VideoOptions)
    (d : ScriptDoc) : Run Unit :=
  Run.bind (Run.ofExcept (TopicVideo.checkJson d)) fun _ =>
  Run.bind (VideoGen.checkTempPath c opts.tempPath) fun tmp =>
  Run.bind (VideoGen.generateVoice c opts (d.text.getD "")) fun _ =>
  Run.bind (if truthyStr d.extra then
      VideoGen.generateVoice c opts (d.extra.getD "")
    else Run.pure ()) fun _ =>
  Run.bind (ffmpegRun c "combineVoiceFiles" (pathJoin tmp "voice_full.wav"))
    fun _ =>
  Run.bind (ffmpegRun c "combineVoiceToBgAudio" (pathJoin tmp "audio.wav"))
    fun _ =>
  Run.bind (ffmpegRun c "genAudio16K" (pathJoin tmp "audio16k.wav")) fun _ =>
  Run.bind (if !(truthyList d.images) then
      Run.throw "JSON data is missing required images field!"
    else Run.pure ()) fun _ =>
  Run.bind (VideoGen.generateImages c opts tmp (d.images.getD []) none)
    fun _ =>
  Run.bind (VideoGen.generateSubtitles c opts) fun _ =>
  Run.bind (VideoGen.getAudioDurationRun c (pathJoin tmp "audio.wav"))
    fun _fullDuration =>
  Run.effect (.render .topic)

/-! ## The entry point (`src/index.ts`) -/

/-- Model of `genVideo` (`src/index.ts`) after JSON parsing: a missing `type` field is
rejected first, then the resource folders are checked (reads only), then the
switch dispatches on the five known shape tags, its default case throwing on
an unknown tag. -/
def genVideo (c : Collab) (opts : VideoOptions) (doc : ScriptDoc) : Run Unit :=
  match doc.type with
  | none => Run.throw "Invalid JSON data! Missing type field."
  | some t =>
    Run.bind (checkResDir c opts.resPath) fun _ =>
    if t = "topic" then TopicVideo.generateVideo c opts doc
    else if t = "message" then MsgVideo.generateVideo c opts doc
    else if t = "rather" then RatherVideo.generateVideo c opts doc
    else if t = "rank" then RankVideo.generateVideo c opts doc
    else if t = "quiz" then QuizVideo.generateVideo c opts doc
    else Run.throw "Invalid video type!"

/-! ## Rendering-collaborator events -/

/-- Events the FFCreator rendering collaborator can emit. -/
inductive RenderEvent
  | start
  | error (e : String)
  | progress (percent : ℚ)
  | complete (output : String)

/-- Events the Generation Task emitter can emit (`log` and `done` are the only
event types the pipeline produces). -/
inductive EmittedEvent
  | log (message : String)
  | done (output : String)
  deriving DecidableEq

/-- The event handlers every shape registers on the FFCreator instance
(`creator.on(...)` in each `generateVideo`): progress, start and error events
are only logged; completion logs and emits the `done` event with the output
path. -/
def creatorEventHandler : RenderEvent → List EmittedEvent
  | .start => [.log "FFCreator start"]
  | .error e => [.log ("FFCreator error: " ++ e)]
  | .progress _ => [.log "FFCreator progress: rendering"]
  | .complete output => [.log "FFCreator completed", .done output]

/-! ## Narration units and cue merging -/

/-- A narration unit as it enters the master sequence: a plain voice clip, a
voice clip with the tick cue merged after it (rank and rather), or a question
and answer with the clock cue merged between them (quiz). -/
inductive VoiceUnit
  | plain (text : String)
  | withCue (text : String)
  | questionWithCue (question answer : String)
  deriving DecidableEq

/-- The narration units `RankVideo.generateVideo` pushes onto `voicesFiles`,
in master order: optional start, one cue-merged unit per ranking, optional
end. -/
def rankVoiceUnits (d : ScriptDoc) : List VoiceUnit :=
  (if truthyStr d.start_script then [VoiceUnit.plain (d.start_script.getD "")]
    else []) ++
    (d.rankings.getD []).map VoiceUnit.withCue ++
    (if truthyStr d.end_script then [VoiceUnit.plain (d.end_script.getD "")]
      else [])

/-- The narration units `QuizVideo.generateVideo` pushes onto `voiceFiles`:
optional start, one merged question unit per question, optional end. -/
def quizVoiceUnits (d : ScriptDoc) : List VoiceUnit :=
  (if truthyStr d.start_script then [VoiceUnit.plain (d.start_script.getD "")]
    else []) ++
    ((List.range (d.questionsQuiz.getD []).length).zip
        (d.questionsQuiz.getD [])).map
      (fun p => VoiceUnit.questionWithCue (QuizVideo.questionText p.1 p.2)
        p.2.answer) ++
    (if truthyStr d.end_script then [VoiceUnit.plain (d.end_script.getD "")]
      else [])

/-- The audio content of a unit file, given the synthesized clip of each text
and the fixed cue clip: a plain unit is its own clip; a rank unit is its clip
with the cue merged after it (`mergeAudio`); a quiz unit is the question clip,
the cue, then the answer clip (`mergeMultiAudio`). -/
def unitAudio (voiceClip : String → Audio) (cueClip : Audio) :
    VoiceUnit → Audio
  | .plain t => voiceClip t
  | .withCue t => mergeAudio (voiceClip t) cueClip
  | .questionWithCue q a =>
    mergeMultiAudio (voiceClip q) (voiceClip a) cueClip

/-! ## Concrete fixtures used by witnesses -/

/-- A collaborator for which every external call succeeds. -/
def trivialCollab : Collab where
  say := fun _ => none
  elevenLabs := fun _ => .ok ()
  neets := fun _ => .ok ()
  ffmpegOp := fun _ _ => .ok ()
  probeFile := fun _ => .ok ⟨some 1⟩
  imageResolve := fun qs => .ok qs
  transcribe := .ok ()
  existsDir := fun _ => true
  randomId := "abc123"

/-- A collaborator whose built-in `say` synthesis fails on every text. -/
def sayFailingCollab : Collab :=
  { trivialCollab with say := fun _ => some "say error" }

/-- A collaborator for which the master-concatenation ffmpeg call fails. -/
def concatFailingCollab : Collab :=
  { trivialCollab with
    ffmpegOp := fun op _ =>
      if op = "combineVoiceFiles" then .error "ffmpeg concat failed"
      else .ok () }

/-- Default options used by witnesses: built-in TTS, vertical, everything
enabled. -/
def defaultOptions : VideoOptions where
  tempPath := "video_temp"
  resPath := "res"
  voiceGenType := .builtinTTS
  imageGenType := .pexelsImageGen

/-! ## Helper lemmas -/

theorem truthyStr_iff (o : Option String) :
    truthyStr o = true ↔ ∃ s, o = some s ∧ s ≠ "" := by
  cases o with
  | none => simp [truthyStr]
  | some s => simp [truthyStr, Bool.eq_false_iff, String.isEmpty_iff]

theorem truthyList_iff {α : Type} (o : Option (List α)) :
    truthyList o = true ↔ o ≠ none := by
  cases o <;> simp [truthyList]

theorem ite_error_ok_iff (c : Bool) (m : String) :
    (if c then (Except.error m : Except String Unit) else Except.ok ()) =
      Except.ok () ↔ c = false := by
  cases c <;> simp

theorem msg_checkJson_ok_iff (d : ScriptDoc) :
    MsgVideo.checkJson d = .ok () ↔
      truthyStr d.contactname = true ∧ truthyList d.script = true := by
  rw [MsgVideo.checkJson, ite_error_ok_iff]
  cases truthyStr d.contactname <;> cases truthyList d.script <;> simp

theorem rather_checkJson_ok_iff (d : ScriptDoc) :
    RatherVideo.checkJson d = .ok () ↔
      truthyList d.questionsRather = true ∧
        truthyStr d.start_script = true ∧ truthyStr d.end_script = true := by
  rw [RatherVideo.checkJson, ite_error_ok_iff]
  cases truthyList d.questionsRather <;> cases truthyStr d.start_script <;>
    cases truthyStr d.end_script <;> simp

theorem Run.effects_bind_ok {α β : Type} (x : Run α) (f : α → Run β) (a : α)
    (h : x.result = .ok a) :
    (Run.bind x f).effects = x.effects ++ (f a).effects := by
  simp [Run.bind, h]

theorem Run.result_bind_ok {α β : Type} (x : Run α) (f : α → Run β) (a : α)
    (h : x.result = .ok a) :
    (Run.bind x f).result = (f a).result := by
  simp [Run.bind, h]

theorem Run.effects_bind_error {α β : Type} (x : Run α) (f : α → Run β)
    (e : String) (h : x.result = .error e) :
    (Run.bind x f).effects = x.effects := by
  simp [Run.bind, h]

theorem Run.result_bind_error {α β : Type} (x : Run α) (f : α → Run β)
    (e : String) (h : x.result = .error e) :
    (Run.bind x f).result = .error e := by
  simp [Run.bind, h]

theorem Run.result_bind {α β : Type} (x : Run α) (f : α → Run β) :
    (Run.bind x f).result =
      match x.result with
      | .error e => .error e
      | .ok a => (f a).result := by
  cases hx : x.result <;> simp [Run.bind, hx]

theorem Run.effects_bind {α β : Type} (x : Run α) (f : α → Run β) :
    (Run.bind x f).effects =
      match x.result with
      | .error _ => x.effects
      | .ok a => x.effects ++ (f a).effects := by
  cases hx : x.result <;> simp [Run.bind, hx]

theorem checkResDirLoop_read_only (c : Collab) (resPath : String) :
    ∀ folders : List String,
      (checkResDirLoop c resPath folders).effects = [] ∧
      (checkResDirLoop c resPath folders).logs = [] := by
  intro folders
  induction folders with
  | nil => exact ⟨rfl, rfl⟩
  | cons folder rest ih =>
    rw [checkResDirLoop]
    by_cases h : c.existsDir (pathJoin resPath folder) <;>
      simp [h, ih, Run.throw]

theorem checkTempPath_result (c : Collab) (p : String) :
    (VideoGen.checkTempPath c p).result = .ok (pathJoin p c.randomId) := by
  by_cases h : c.existsDir (pathJoin p c.randomId) <;>
    simp [VideoGen.checkTempPath, h]

theorem checkTempPath_no_render (c : Collab) (p : String) (spec : RenderSpec) :
    Effect.render spec ∉ (VideoGen.checkTempPath c p).effects := by
  by_cases h : c.existsDir (pathJoin p c.randomId) <;>
    simp [VideoGen.checkTempPath, h]

theorem builtin_generateVoice_shape (c : Collab) (t : String) :
    (BuiltinTTSVoice.generateVoice c t).effects = [.ttsCall "Say" t] ∧
    (BuiltinTTSVoice.generateVoice c t).result = .ok () := by
  rw [BuiltinTTSVoice.generateVoice]
  cases c.say t <;> simp

theorem generateVoice_builtin (c : Collab) (opts : VideoOptions) (t : String)
    (h1 : opts.voiceGenType = .builtinTTS) (h2 : opts.disableTTS = false) :
    VideoGen.generateVoice c opts t = BuiltinTTSVoice.generateVoice c t := by
  simp [VideoGen.generateVoice, h1, h2]

theorem msgVoiceLoop_builtin (c : Collab) (opts : VideoOptions)
    (h1 : opts.voiceGenType = .builtinTTS) (h2 : opts.disableTTS = false) :
    ∀ script : List MessageItem,
      (MsgVideo.voiceLoop c opts script).effects =
        script.map (fun m => Effect.ttsCall "Say" m.message) ∧
      (MsgVideo.voiceLoop c opts script).result = .ok () := by
  intro script
  induction script with
  | nil => exact ⟨rfl, rfl⟩
  | cons m rest ih =>
    rw [MsgVideo.voiceLoop, generateVoice_builtin c opts _ h1 h2]
    constructor
    · rw [Run.effects_bind_ok _ _ ()
        (builtin_generateVoice_shape c m.message).2]
      simp [(builtin_generateVoice_shape c m.message).1, ih.1]
    · rw [Run.result_bind_ok _ _ ()
        (builtin_generateVoice_shape c m.message).2]
      exact ih.2

theorem msgExtraStage_builtin (c : Collab) (opts : VideoOptions)
    (d : ScriptDoc) (h1 : opts.voiceGenType = .builtinTTS)
    (h2 : opts.disableTTS = false) :
    (if truthyStr d.extra then
        VideoGen.generateVoice c opts (d.extra.getD "")
      else Run.pure ()).effects =
      (if truthyStr d.extra then
        [Effect.ttsCall "Say" (d.extra.getD "")] else []) ∧
    (if truthyStr d.extra then
        VideoGen.generateVoice c opts (d.extra.getD "")
      else Run.pure ()).result = .ok () := by
  by_cases h : truthyStr d.extra = true
  · simp only [h, if_true]
    rw [generateVoice_builtin c opts _ h1 h2]
    exact ⟨(builtin_generateVoice_shape c _).1,
      (builtin_generateVoice_shape c _).2⟩
  · simp [h, Run.pure]

/-! ## Claim theorems -/

/-- C1: the start offset assigned to message bubble `i` is the sum of the
measured durations of units `0..i-1`: `offset 0 = 0`,
`offset (i+1) = offset i + duration i` (cumulative-sum law), every offset is
the prefix sum of the duration list, and each bubble of the timeline fades in
exactly at the cumulative offset of all bubbles before it. -/
theorem msg_offsets_cumulative_sum (durations : List ℚ) :
    imgStartDuration durations 0 = 0 ∧
    (∀ i : ℕ, imgStartDuration durations (i + 1) =
      imgStartDuration durations i + durations.getD i 0) ∧
    (∀ i : ℕ, imgStartDuration durations i = (durations.take i).sum) ∧
    (∀ (script : List MessageItem) (fullDuration : ℚ),
      msgTimeline script durations fullDuration =
        (List.range script.length).map
          (fun i => ((durations.take i).sum,
            fullDuration - (durations.take i).sum))) := by
  refine ⟨imgStartDuration_zero durations, imgStartDuration_succ durations,
    imgStartDuration_eq_sum durations, ?_⟩
  intro script fullDuration
  simp [msgTimeline, msgTimelineEntry, imgStartDuration_eq_sum]

/-- C10: every message-bubble timeline entry is anchored to the end of the
video: its duration is the full audio duration minus its start offset, so
start offset plus duration equals the full duration exactly, for the entry of
every index and for every entry of the emitted timeline. -/
theorem msg_bubble_extends_to_video_end (durations : List ℚ)
    (fullDuration : ℚ) (index : ℕ) :
    (msgTimelineEntry durations fullDuration index).1 +
        (msgTimelineEntry durations fullDuration index).2 = fullDuration ∧
    ∀ script : List MessageItem,
      ∀ entry ∈ msgTimeline script durations fullDuration,
        entry.1 + entry.2 = fullDuration := by
  constructor
  · simp [msgTimelineEntry]
  · intro script entry h
    simp only [msgTimeline, List.mem_map] at h
    obtain ⟨i, _, hi⟩ := h
    rw [← hi]
    simp [msgTimelineEntry]

/-- Witness for C10 at the concrete duration list `[2, 3]`, full duration `7`,
index `1`, and the single-bubble timeline entry `(0, 7)`. -/
theorem msg_bubble_extends_to_video_end_witness :
    (msgTimelineEntry [2, 3] 7 1).1 + (msgTimelineEntry [2, 3] 7 1).2 = 7 ∧
    ((0 : ℚ), (7 : ℚ)).1 + ((0 : ℚ), (7 : ℚ)).2 = 7 :=
  ⟨(msg_bubble_extends_to_video_end [2, 3] 7 1).1,
    (msg_bubble_extends_to_video_end [2, 3] 7 1).2
      [⟨"male", "hi", "sender"⟩] (0, 7)
      (by simp [msgTimeline, msgTimelineEntry, imgStartDuration])⟩

/-- C8: the duration prober treats a missing `format.duration` and a
zero-length duration as `0` and never turns either into an error: a probe
that yields metadata always resolves, and probing a list of files with
metadata yields exactly the `duration ?? 0` of each. -/
theorem prober_missing_duration_zero :
    (∀ m : ProbeMeta, m.duration = none → getAudioDuration (.ok m) = .ok 0) ∧
    getAudioDuration (.ok ⟨some 0⟩) = .ok 0 ∧
    (∀ m : ProbeMeta, ∃ q : ℚ, getAudioDuration (.ok m) = .ok q) ∧
    (∀ metas : List ProbeMeta,
      getListOfDurations (metas.map Except.ok) =
        .ok (metas.map fun m => m.duration.getD 0)) := by
  refine ⟨?_, rfl, ?_, ?_⟩
  · intro m h
    simp [getAudioDuration, h]
  · intro m
    exact ⟨m.duration.getD 0, rfl⟩
  · intro metas
    induction metas with
    | nil => rfl
    | cons m rest ih =>
      simp only [List.map_cons, getListOfDurations, getAudioDuration]
      rw [ih]

/-- Witness for C8 at a probe result with a missing duration field. -/
theorem prober_missing_duration_zero_witness :
    getAudioDuration (.ok ⟨none⟩) = .ok 0 :=
  prober_missing_duration_zero.1 ⟨none⟩ rfl

/-- C5: a cue clip is merged after the audio of the unit that carries it
(`mergeAudio`, and between question and answer for the quiz merge
`mergeMultiAudio`), its duration is absorbed into that single unit file, the
master track duration is the sum of the per-unit durations, and the number of
entries of the master sequence equals the number of narration units — cues
never add an entry. -/
theorem cue_merge_absorbed_no_extra_entry :
    (∀ unitClip cueClip : Audio,
      mergeAudio unitClip cueClip = unitClip ++ cueClip ∧
      audioDuration (mergeAudio unitClip cueClip) =
        audioDuration unitClip + audioDuration cueClip) ∧
    (∀ questionClip answerClip cueClip : Audio,
      mergeMultiAudio questionClip answerClip cueClip =
        questionClip ++ cueClip ++ answerClip ∧
      audioDuration (mergeMultiAudio questionClip answerClip cueClip) =
        audioDuration questionClip + audioDuration cueClip +
          audioDuration answerClip) ∧
    (∀ voiceFiles : List Audio,
      audioDuration (combineVoiceFiles voiceFiles) =
        (voiceFiles.map audioDuration).sum) ∧
    (∀ d : ScriptDoc,
      (rankVoiceUnits d).length =
        (if truthyStr d.start_script then 1 else 0) +
          (d.rankings.getD []).length +
          (if truthyStr d.end_script then 1 else 0)) ∧
    (∀ d : ScriptDoc,
      (quizVoiceUnits d).length =
        (if truthyStr d.start_script then 1 else 0) +
          (d.questionsQuiz.getD []).length +
          (if truthyStr d.end_script then 1 else 0)) ∧
    (∀ (tmp : String) (startOn endOn : Bool) (rankings : List String),
      (RankVideo.voicesFileNames tmp startOn rankings endOn).length =
        (if startOn then 1 else 0) + rankings.length +
          (if endOn then 1 else 0)) := by
  refine ⟨?_, ?_, ?_, ?_, ?_, ?_⟩
  · intro unitClip cueClip
    exact ⟨rfl, by simp [audioDuration, mergeAudio]⟩
  · intro questionClip answerClip cueClip
    refine ⟨rfl, ?_⟩
    simp [audioDuration, mergeMultiAudio]
    ring
  · intro voiceFiles
    induction voiceFiles with
    | nil => rfl
    | cons a rest ih => simp [audioDuration, combineVoiceFiles] at ih ⊢; simp [ih]
  · intro d
    cases h1 : truthyStr d.start_script <;>
      cases h2 : truthyStr d.end_script <;>
      simp [rankVoiceUnits, h1, h2] <;> omega
  · intro d
    cases h1 : truthyStr d.start_script <;>
      cases h2 : truthyStr d.end_script <;>
      simp [quizVoiceUnits, h1, h2] <;> omega
  · intro tmp startOn endOn rankings
    cases startOn <;> cases endOn <;>
      simp [RankVideo.voicesFileNames] <;> omega

/-- C9: with photo changing disabled, `generateImages` performs no
image-provider call (no fetch effect, and the result does not depend on the
collaborator), and both resolutions of the same query list return the same
deterministic destination paths. -/
theorem skip_refetch_no_provider (c c2 : Collab) (opts opts2 : VideoOptions)
    (tempPath : String) (filePref : Option String) (images : List String)
    (h : opts.changePhotos = false) (h2 : opts2.changePhotos = false) :
    (VideoGen.generateImages c opts tempPath images filePref).effects = [] ∧
    (VideoGen.generateImages c opts tempPath images filePref).result =
      .ok (imageSkipPaths tempPath filePref images) ∧
    (VideoGen.generateImages c opts tempPath images filePref).result =
      (VideoGen.generateImages c2 opts2 tempPath images filePref).result := by
  simp [VideoGen.generateImages, h, h2]

/-- Witness for C9: two resolutions of the query `cat photo` under different
collaborators, with photo changing disabled. -/
theorem skip_refetch_no_provider_witness :
    (VideoGen.generateImages trivialCollab
      { defaultOptions with changePhotos := false } "tmp" ["cat photo"]
      none).effects = [] ∧
    (VideoGen.generateImages trivialCollab
      { defaultOptions with changePhotos := false } "tmp" ["cat photo"]
      none).result = .ok (imageSkipPaths "tmp" none ["cat photo"]) ∧
    (VideoGen.generateImages trivialCollab
      { defaultOptions with changePhotos := false } "tmp" ["cat photo"]
      none).result =
      (VideoGen.generateImages sayFailingCollab
        { defaultOptions with changePhotos := false } "tmp" ["cat photo"]
        none).result :=
  skip_refetch_no_provider trivialCollab sayFailingCollab
    { defaultOptions with changePhotos := false }
    { defaultOptions with changePhotos := false }
    "tmp" none ["cat photo"] rfl rfl

/-- C6 counterexample: the background mix does truncate an input.  With a
voice track of 2 seconds and a background track of 5 seconds, the
`duration=first` mix lasts 2 seconds, not the 5 seconds that covering the
full extent of both inputs would require. -/
theorem bg_mix_truncates_longer_background :
    combineVoiceToBgAudioDuration 2 5 = 2 ∧
    combineVoiceToBgAudioDuration 2 5 ≠ max 2 5 := by
  constructor
  · rfl
  · rw [show combineVoiceToBgAudioDuration 2 5 = 2 from rfl]
    norm_num

/-- C6 amended: when background music is enabled the voice track is overlaid
with the background track at the fixed gains 1 (voice) and 0.1 (background),
and the mix uses `duration=first`: the output always lasts exactly the voice
track — the voice track is never truncated, but a background track longer
than the voice track is cut off at the voice-track end.  When background
music is disabled the voice file from master assembly is used unmodified
downstream (no mix call, same file). -/
theorem bg_mix_duration_first_semantics :
    (∀ voiceDur bgDur : ℚ,
      combineVoiceToBgAudioDuration voiceDur bgDur = voiceDur) ∧
    combineVoiceToBgAudioSpec.voiceGain = 1 ∧
    combineVoiceToBgAudioSpec.bgGain = 1 / 10 ∧
    combineVoiceToBgAudioSpec.durationMode = .first ∧
    (∀ (c : Collab) (tmp voiceFile : String),
      (RankVideo.bgMixStage c false tmp voiceFile).effects = [] ∧
      (RankVideo.bgMixStage c false tmp voiceFile).result = .ok voiceFile) :=
  ⟨fun _ _ => rfl, rfl, rfl, rfl, fun _ _ _ => ⟨rfl, rfl⟩⟩

/-- C7 counterexample: presence is all `checkJson` checks.  A message script
with a contact label and an *empty* `script` array passes `MsgVideo.checkJson`,
and a rather script with start and end narration and an *empty* `questions`
array passes `RatherVideo.checkJson` — neither is rejected, contrary to the
claimed non-emptiness requirements. -/
theorem checkJson_accepts_empty_arrays :
    MsgVideo.checkJson
      { type := some "message", contactname := some "Jane",
        script := some [] } = .ok () ∧
    RatherVideo.checkJson
      { type := some "rather", questionsRather := some [],
        start_script := some "hello", end_script := some "bye" } =
      .ok () := by
  constructor <;> rfl

/-- C7 amended: `checkJson` fails with the missing-field error exactly when a
required field is absent or falsy: a message script is rejected iff it lacks a
non-empty contact label or lacks the `script` field (an empty script array is
accepted), and a rather script is rejected iff it lacks the `questions` field
or lacks non-empty start or end narration (an empty question list is
accepted). -/
theorem checkJson_presence_characterization (d : ScriptDoc) :
    (MsgVideo.checkJson d = .ok () ↔
      (∃ s, d.contactname = some s ∧ s ≠ "") ∧ d.script ≠ none) ∧
    (RatherVideo.checkJson d = .ok () ↔
      d.questionsRather ≠ none ∧
        (∃ s, d.start_script = some s ∧ s ≠ "") ∧
        (∃ s, d.end_script = some s ∧ s ≠ "")) := by
  constructor
  · rw [msg_checkJson_ok_iff, truthyStr_iff, truthyList_iff]
  · rw [rather_checkJson_ok_iff, truthyStr_iff, truthyStr_iff,
      truthyList_iff]

/-- C4: a rank script with a title, two rankings, two image queries and
non-empty start and end narration produces exactly four narration units
(plain start, two cue-merged ranking units, plain end), three image files
(start card plus one per ranking), scene durations `[d0, d1, d2 + d3]` — the
last scene absorbing the end-narration duration — whose sum is the sum of all
four measured segment durations, which is also the duration of the
concatenated master track. -/
theorem rank_scenario_counts_and_durations
    (title s e r1 r2 i1 i2 : String) (hs : s ≠ "") (he : e ≠ "")
    (d0 d1 d2 d3 : ℚ) (a0 a1 a2 a3 : Audio) :
    rankVoiceUnits
        { type := some "rank", title := some title,
          rankings := some [r1, r2], images := some [i1, i2],
          start_script := some s, end_script := some e } =
      [.plain s, .withCue r1, .withCue r2, .plain e] ∧
    (∀ tmp : String, (RankVideo.imageFileNames tmp [r1, r2]).length = 3) ∧
    rankSceneDurations [d0, d1, d2, d3] 3 = [d0, d1, d2 + d3] ∧
    (rankSceneDurations [d0, d1, d2, d3] 3).sum = d0 + d1 + d2 + d3 ∧
    audioDuration (combineVoiceFiles [a0, a1, a2, a3]) =
      audioDuration a0 + audioDuration a1 + audioDuration a2 +
        audioDuration a3 := by
  have hsceneEq : rankSceneDurations [d0, d1, d2, d3] 3 = [d0, d1, d2 + d3] := by
    simp [rankSceneDurations, show List.range 3 = [0, 1, 2] from rfl,
      List.getD]
  refine ⟨?_, ?_, hsceneEq, ?_, ?_⟩
  · simp [rankVoiceUnits, truthyStr, Bool.eq_false_iff, String.isEmpty_iff,
      hs, he]
  · intro tmp
    simp [RankVideo.imageFileNames]
  · rw [hsceneEq]
    simp
    ring
  · simp [audioDuration, combineVoiceFiles]
    ring

/-- Witness for C4 at a concrete rank script with rankings `A`, `B` and
measured durations `1, 2, 3, 4`. -/
theorem rank_scenario_counts_and_durations_witness :
    rankVoiceUnits
        { type := some "rank", title := some "Top 2",
          rankings := some ["A", "B"], images := some ["a pic", "b pic"],
          start_script := some "intro", end_script := some "outro" } =
      [.plain "intro", .withCue "A", .withCue "B", .plain "outro"] ∧
    (∀ tmp : String, (RankVideo.imageFileNames tmp ["A", "B"]).length = 3) ∧
    rankSceneDurations [1, 2, 3, 4] 3 = [1, 2, 3 + 4] ∧
    (rankSceneDurations [1, 2, 3, 4] 3).sum = 1 + 2 + 3 + 4 ∧
    audioDuration (combineVoiceFiles [[1], [2], [3], [4]]) =
      audioDuration [1] + audioDuration [2] + audioDuration [3] +
        audioDuration [4] :=
  rank_scenario_counts_and_durations "Top 2" "intro" "outro" "A" "B"
    "a pic" "b pic" (by decide) (by decide) 1 2 3 4 [1] [2] [3] [4]

/-- C3: a document whose `type` field is missing or is not one of the five
known shape tags is rejected by `genVideo` with no side effect at all: no
temp directory is created, no external collaborator is called, and the
filesystem is left unchanged (the only accesses before the throw are the
read-only resource-folder checks). -/
theorem invalid_type_rejected_before_effects (c : Collab)
    (opts : VideoOptions) (doc : ScriptDoc)
    (h : doc.type = none ∨ ∃ t, doc.type = some t ∧
      t ∉ (["topic", "message", "rather", "rank", "quiz"] : List String)) :
    (genVideo c opts doc).effects = [] ∧
    ∃ e, (genVideo c opts doc).result = Except.error e := by
  rcases h with h | ⟨t, ht, hmem⟩
  · rw [genVideo, h]
    exact ⟨rfl, _, rfl⟩
  · have hne : t ≠ "topic" ∧ t ≠ "message" ∧ t ≠ "rather" ∧ t ≠ "rank" ∧
        t ≠ "quiz" := by
      simpa using hmem
    rw [genVideo, ht]
    rcases hres : (checkResDir c opts.resPath).result with e | u
    · rw [Run.effects_bind_error _ _ _ hres, Run.result_bind_error _ _ _ hres]
      exact ⟨(checkResDirLoop_read_only c opts.resPath _).1, _, rfl⟩
    · rw [Run.effects_bind_ok _ _ _ hres, Run.result_bind_ok _ _ _ hres]
      simp only [hne.1, hne.2.1, hne.2.2.1, hne.2.2.2.1, hne.2.2.2.2,
        if_false, if_neg]
      refine ⟨?_, "Invalid video type!", rfl⟩
      rw [checkResDir, (checkResDirLoop_read_only c opts.resPath _).1]
      rfl

/-- Witness for C3 at the document with the unknown tag `bogus`. -/
theorem invalid_type_rejected_before_effects_witness :
    (genVideo trivialCollab defaultOptions
      { type := some "bogus" }).effects = [] ∧
    ∃ e, (genVideo trivialCollab defaultOptions
      { type := some "bogus" }).result = Except.error e :=
  invalid_type_rejected_before_effects trivialCollab defaultOptions
    { type := some "bogus" } (Or.inr ⟨"bogus", rfl, by decide⟩)

/-- C2 counterexample: a voice-generation collaborator failure does not raise.
With the built-in TTS, a failing `say.export` is logged with an `[ignoring]`
tag and the stage still resolves successfully; and a rendering-collaborator
error is only logged by the registered handler — no error or done event is
emitted, so the Generation Task never surfaces it as a failure. -/
theorem builtin_tts_failure_not_raised :
    (BuiltinTTSVoice.generateVoice sayFailingCollab "hello").result =
      .ok () ∧
    "[ignoring] Error creating voice for message: say error" ∈
      (BuiltinTTSVoice.generateVoice sayFailingCollab "hello").logs ∧
    creatorEventHandler (.error "render failed") =
      [.log ("FFCreator error: " ++ "render failed")] := by
  refine ⟨rfl, ?_, rfl⟩
  simp [BuiltinTTSVoice.generateVoice, sayFailingCollab, trivialCollab]

/-- C2 amended: awaited-stage failures (here: the ffmpeg master-concatenation
call of the message pipeline) reject immediately — the error propagates as
the result, a failed step contributes no continuation effects (the generic
sequencing law), every earlier voice unit was attempted exactly once (no
retry), nothing after the failed stage runs, and in particular the render
hand-off is never attempted.  However two collaborator failures do not follow
the abort rule: a built-in-TTS synthesis failure always resolves successfully
(it is logged and ignored), and an FFCreator render error is only logged —
the handler emits no error or done event. -/
theorem pipeline_abort_semantics (c : Collab) (opts : VideoOptions)
    (d : ScriptDoc) (e : String)
    (h1 : opts.voiceGenType = .builtinTTS)
    (h2 : opts.disableTTS = false)
    (hjson : MsgVideo.checkJson d = .ok ())
    (hfail : c.ffmpegOp "combineVoiceFiles"
      (pathJoin (pathJoin opts.tempPath c.randomId) "voice.wav") =
      .error e) :
    (∀ (α β : Type) (x : Run α) (f : α → Run β) (err : String),
      x.result = .error err →
      Run.bind x f = ⟨x.effects, x.logs, .error err⟩) ∧
    (MsgVideo.generateVideo c opts d).result = .error e ∧
    (MsgVideo.generateVideo c opts d).effects =
      (VideoGen.checkTempPath c opts.tempPath).effects ++
        ((d.script.getD []).map (fun m => Effect.ttsCall "Say" m.message) ++
          ((if truthyStr d.extra then
              [Effect.ttsCall "Say" (d.extra.getD "")] else []) ++
            [Effect.ffmpeg "combineVoiceFiles"
              (pathJoin (pathJoin opts.tempPath c.randomId) "voice.wav")])) ∧
    (∀ spec : RenderSpec,
      Effect.render spec ∉ (MsgVideo.generateVideo c opts d).effects) ∧
    (∀ (c2 : Collab) (t : String),
      (BuiltinTTSVoice.generateVoice c2 t).result = .ok ()) ∧
    (∀ err : String, creatorEventHandler (.error err) =
      [.log ("FFCreator error: " ++ err)]) := by
  have hjsonR : (Run.ofExcept (MsgVideo.checkJson d)).result =
      Except.ok () := hjson
  have hloop := msgVoiceLoop_builtin c opts h1 h2 (d.script.getD [])
  have hextra := msgExtraStage_builtin c opts d h1 h2
  have hs4R : (ffmpegRun c "combineVoiceFiles"
      (pathJoin (pathJoin opts.tempPath c.randomId) "voice.wav")).result =
      .error e := by
    simp [ffmpegRun, hfail]
  have hs4E : (ffmpegRun c "combineVoiceFiles"
      (pathJoin (pathJoin opts.tempPath c.randomId) "voice.wav")).effects =
      [Effect.ffmpeg "combineVoiceFiles"
        (pathJoin (pathJoin opts.tempPath c.randomId) "voice.wav")] := by
    simp [ffmpegRun, hfail]
  have hres : (MsgVideo.generateVideo c opts d).result = .error e := by
    rw [MsgVideo.generateVideo]
    simp only [Run.result_bind, hjsonR, checkTempPath_result c opts.tempPath,
      hloop.2, hextra.2, hs4R]
  have heff : (MsgVideo.generateVideo c opts d).effects =
      (VideoGen.checkTempPath c opts.tempPath).effects ++
        ((d.script.getD []).map (fun m => Effect.ttsCall "Say" m.message) ++
          ((if truthyStr d.extra then
              [Effect.ttsCall "Say" (d.extra.getD "")] else []) ++
            [Effect.ffmpeg "combineVoiceFiles"
              (pathJoin (pathJoin opts.tempPath c.randomId) "voice.wav")])) := by
    rw [MsgVideo.generateVideo]
    simp only [Run.effects_bind, Run.result_bind, hjsonR,
      checkTempPath_result c opts.tempPath, hloop.1, hloop.2, hextra.1,
      hextra.2, hs4R, hs4E]
    simp [Run.ofExcept]
  refine ⟨fun α β x f err hx => Run.bind_error x f err hx, hres, heff, ?_,
    fun c2 t => (builtin_generateVoice_shape c2 t).2, fun err => rfl⟩
  intro spec
  rw [heff]
  by_cases hx : truthyStr d.extra = true <;>
    simp [hx, List.mem_append, checkTempPath_no_render c opts.tempPath spec]

/-- The concrete message document used by the C2 witness. -/
def msgDocW : ScriptDoc :=
  { type := some "message", contactname := some "Jane",
    script := some [⟨"male", "hi", "sender"⟩, ⟨"female", "hey", "receiver"⟩] }

/-- Witness for C2 at a concrete two-bubble message run whose
master-concatenation ffmpeg call fails. -/
theorem pipeline_abort_semantics_witness :
    (MsgVideo.generateVideo concatFailingCollab defaultOptions
      msgDocW).result = .error "ffmpeg concat failed" ∧
    ∀ spec : RenderSpec,
      Effect.render spec ∉
        (MsgVideo.generateVideo concatFailingCollab defaultOptions
          msgDocW).effects :=
  ⟨(pipeline_abort_semantics concatFailingCollab defaultOptions msgDocW
      "ffmpeg concat failed" rfl rfl rfl rfl).2.1,
    (pipeline_abort_semantics concatFailingCollab defaultOptions msgDocW
      "ffmpeg concat failed" rfl rfl rfl rfl).2.2.2.1⟩

end AutoShorts
